import Mathlib

/-!
# Verification of `diart/pipelines.py` (StreamingSpeakerDiarization)

A shallow embedding of `src/diart/pipelines.py` in Lean 4.

Modelling conventions:
* Python `float` time values (`duration`, `step`, `latency`, thresholds) are
  modelled as exact rationals `ℚ`; Python `a % b` on nonnegative reals is
  `a - b * ⌊a / b⌋` (`pymod` below).
* Reactive streams (`rx.Observable`) are modelled as ordered lazy sequences,
  i.e. Lean `List`s; `rx.zip` is `List.zip`, `ops.map` is `List.map`, and a
  stateful callable applied with `ops.starmap` is `statefulMap` below.
* The external collaborators (neural model adapters and the `functional` /
  `operators` modules, which are not part of this file's source) are an
  abstract parameter bundle `FnModel`; the two helpers that the spec pins
  down numerically (`DelayedAggregation.num_overlapping_windows` and
  `buffer_slide`) are modelled from the spec, as documented on them.
-/

set_option autoImplicit false

namespace Diart

variable {W S E G A An σ : Type}

/-- Python `a % b` for real operands: `a - b * ⌊a / b⌋`, which is what
`float.__mod__` computes (sign of the result follows `b`). -/
def pymod (a b : ℚ) : ℚ := a - b * ⌊a / b⌋

/-- The properties of a loaded segmentation model that `PipelineConfig`
reads: `model.specifications.duration` and `model.audio.sample_rate`. -/
structure PipelineModelSpec where
  duration : ℚ
  sample_rate : ℕ
deriving DecidableEq

/-- The keyword arguments of `PipelineConfig.__init__` (the two model-name
arguments select the external models and are represented by the
`PipelineModelSpec` passed separately to `PipelineConfig.init`). -/
structure PipelineConfigArgs where
  duration : Option ℚ := none
  step : ℚ := 1/2
  latency : Option ℚ := none
  tau_active : ℚ := 3/5
  rho_update : ℚ := 3/10
  delta_new : ℚ := 1
  gamma : ℚ := 3
  beta : ℚ := 10
  max_speakers : ℕ := 20
deriving DecidableEq

/-- A constructed `PipelineConfig`: the fields stored by
`PipelineConfig.__init__` after defaulting. -/
structure PipelineConfig where
  segModel : PipelineModelSpec
  duration : ℚ
  step : ℚ
  latency : ℚ
  tau_active : ℚ
  rho_update : ℚ
  delta_new : ℚ
  gamma : ℚ
  beta : ℚ
  max_speakers : ℕ
deriving DecidableEq

/-- `PipelineConfig.__init__`: `duration` defaults to the segmentation
model's specified duration, `latency` defaults to `step`, and
`assert self.step <= self.latency <= self.duration` must hold, otherwise
no configuration object is produced (`none` models the raised
`AssertionError`). -/
def PipelineConfig.init (segModel : PipelineModelSpec) (a : PipelineConfigArgs) :
    Option PipelineConfig :=
  let duration := a.duration.getD segModel.duration
  let latency := a.latency.getD a.step
  if a.step ≤ latency ∧ latency ≤ duration then
    some {
      segModel := segModel
      duration := duration
      step := a.step
      latency := latency
      tau_active := a.tau_active
      rho_update := a.rho_update
      delta_new := a.delta_new
      gamma := a.gamma
      beta := a.beta
      max_speakers := a.max_speakers }
  else
    none

/-- The `sample_rate` property: `self.segmentation.model.audio.sample_rate`. -/
def PipelineConfig.sample_rate (c : PipelineConfig) : ℕ :=
  c.segModel.sample_rate

/-- An `AudioSource`: `uri`, `sample_rate`, optional `duration`,
`is_regular`, and its stream of audio windows. -/
structure AudioSource (W : Type) where
  uri : String
  sample_rate : ℕ
  duration : Option ℚ
  is_regular : Bool
  stream : List W

/-- `PipelineConfig.get_end_time`: if the source has a duration, return
`duration - duration % step`, else `None`. -/
def PipelineConfig.get_end_time (c : PipelineConfig) (source : AudioSource W) :
    Option ℚ :=
  match source.duration with
  | some d => some (d - pymod d c.step)
  | none => none

/-- A stateful callable applied elementwise to a stream (`ops.starmap` with a
callable object that mutates its own state, such as
`fn.OnlineSpeakerClustering`): one output per input element, state threaded
in arrival order. -/
def statefulMap {α β : Type} (f : σ → α → σ × β) : σ → List α → List β
  | _, [] => []
  | s, x :: xs =>
    let r := f s x
    r.2 :: statefulMap f r.1 xs

/-- Modelled from the spec: `dops.buffer_slide(n)` (module `operators` is not
under `src/`) buffers the `n` most recent sliding chunks with a step of one
chunk, emitting on each arrival the current buffer (up to `n` elements ending
at the newest one). -/
def buffer_slide {α : Type} (n : ℕ) (l : List α) : List (List α) :=
  (List.range l.length).map (fun i => (l.take (i + 1)).drop (i + 1 - n))

/-- The parameters with which `fn.OnlineSpeakerClustering` is instantiated
(module `functional` is not under `src/`; only its constructor signature is
needed here). -/
structure OnlineSpeakerClustering where
  tau_active : ℚ
  rho_update : ℚ
  delta_new : ℚ
  metric : String
  max_speakers : ℕ
deriving DecidableEq

/-- The parameters with which `fn.DelayedAggregation` is instantiated. -/
structure DelayedAggregation where
  step : ℚ
  latency : ℚ
  strategy : String
  stream_end : Option ℚ
deriving DecidableEq

/-- Modelled from the spec: `num_overlapping_windows = ceil(latency / step)`
(`fn.DelayedAggregation` is not under `src/`; section 3 of the spec fixes
this formula). -/
def DelayedAggregation.num_overlapping_windows (a : DelayedAggregation) : ℕ :=
  (⌈a.latency / a.step⌉).toNat

/-- The external collaborators of `pipelines.py`: the model adapters held by
the configuration (`fn.FrameWiseModel`, `fn.ChunkWiseModel`) and the callable
objects of the `functional` / `operators` modules, which are outside this
file's source.  `clus` is the stateful `fn.OnlineSpeakerClustering` callable
(state type `σ`, initial state `clusInit`); `aggregate` and `select` are the
`fn.DelayedAggregation` callable at the two element types it is used with. -/
structure FnModel (W S E G A An σ : Type) where
  segmentation : W → S
  embedding : W → S → E
  osp : ℚ → ℚ → S → S
  embNorm : ℕ → E → E
  regularize : ℚ → ℚ → ℕ → List W → List W
  clus : OnlineSpeakerClustering → σ → S × E → σ × G
  clusInit : σ
  aggregate : DelayedAggregation → List G → A
  binarize : String → ℚ → A → An
  select : DelayedAggregation → List W → W

/-- The `OnlineSpeakerTracking` class: holds the configuration. -/
structure OnlineSpeakerTracking where
  config : PipelineConfig

/-- The `fn.OnlineSpeakerClustering` instance built by `from_model_streams`:
`(tau_active, rho_update, delta_new, "cosine", max_speakers)`. -/
def OnlineSpeakerTracking.clusteringModule (t : OnlineSpeakerTracking) :
    OnlineSpeakerClustering :=
  { tau_active := t.config.tau_active
    rho_update := t.config.rho_update
    delta_new := t.config.delta_new
    metric := "cosine"
    max_speakers := t.config.max_speakers }

/-- The `fn.DelayedAggregation` instance of the annotation branch:
`(step, latency, strategy="hamming", stream_end=end_time)`. -/
def OnlineSpeakerTracking.aggregationModule (t : OnlineSpeakerTracking)
    (end_time : Option ℚ) : DelayedAggregation :=
  { step := t.config.step
    latency := t.config.latency
    strategy := "hamming"
    stream_end := end_time }

/-- The `fn.DelayedAggregation` instance of the waveform branch:
`(step, latency, strategy="first", stream_end=end_time)`. -/
def OnlineSpeakerTracking.windowSelectorModule (t : OnlineSpeakerTracking)
    (end_time : Option ℚ) : DelayedAggregation :=
  { step := t.config.step
    latency := t.config.latency
    strategy := "first"
    stream_end := end_time }

/-- The main pipeline of `from_model_streams`:
`rx.zip(segmentation_stream, embedding_stream)`, `ops.starmap(clustering)`,
`dops.buffer_slide(aggregation.num_overlapping_windows)`,
`ops.map(aggregation)`, `ops.map(binarize)`. -/
def OnlineSpeakerTracking.mainPipeline (t : OnlineSpeakerTracking)
    (m : FnModel W S E G A An σ) (uri : String) (end_time : Option ℚ)
    (segmentation_stream : List S) (embedding_stream : List E) : List An :=
  let clustering := t.clusteringModule
  let aggregation := t.aggregationModule end_time
  ((buffer_slide aggregation.num_overlapping_windows
      (statefulMap (m.clus clustering) m.clusInit
        (segmentation_stream.zip embedding_stream))).map
    (m.aggregate aggregation)).map
    (m.binarize uri t.config.tau_active)

/-- The waveform branch of `from_model_streams`:
`audio_chunk_stream` piped through
`dops.buffer_slide(window_selector.num_overlapping_windows)` and
`ops.map(window_selector)`. -/
def OnlineSpeakerTracking.waveformStream (t : OnlineSpeakerTracking)
    (m : FnModel W S E G A An σ) (end_time : Option ℚ)
    (audio_chunk_stream : List W) : List W :=
  let window_selector := t.windowSelectorModule end_time
  (buffer_slide window_selector.num_overlapping_windows audio_chunk_stream).map
    (m.select window_selector)

/-- `OnlineSpeakerTracking.from_model_streams`: joins the two model streams
through clustering, aggregation and binarization; if an audio chunk stream is
given, zips the result with the selected waveform windows, otherwise pairs
each output with `None` for consistency. -/
def OnlineSpeakerTracking.from_model_streams (t : OnlineSpeakerTracking)
    (m : FnModel W S E G A An σ) (uri : String) (end_time : Option ℚ)
    (segmentation_stream : List S) (embedding_stream : List E)
    (audio_chunk_stream : Option (List W) := none) : List (An × Option W) :=
  let pipeline := t.mainPipeline m uri end_time segmentation_stream embedding_stream
  match audio_chunk_stream with
  | some audio => pipeline.zip ((t.waveformStream m end_time audio).map some)
  | none => pipeline.map (fun ann => (ann, none))

/-- The `OnlineSpeakerDiarization` class: holds the configuration; its
`speaker_tracking` attribute is `OnlineSpeakerTracking(config)`. -/
structure OnlineSpeakerDiarization where
  config : PipelineConfig

/-- The `speaker_tracking` attribute set by `OnlineSpeakerDiarization.__init__`. -/
def OnlineSpeakerDiarization.speaker_tracking (d : OnlineSpeakerDiarization) :
    OnlineSpeakerTracking :=
  { config := d.config }

/-- The `regular_stream` local of `from_source`: the source stream itself if
the source is regular, otherwise the stream piped through
`dops.regularize_stream(duration, step, sample_rate)`. -/
def OnlineSpeakerDiarization.regularStream (d : OnlineSpeakerDiarization)
    (m : FnModel W S E G A An σ) (source : AudioSource W) : List W :=
  if source.is_regular then source.stream
  else m.regularize d.config.duration d.config.step source.sample_rate source.stream

/-- The `embedding_stream` local of `from_source`:
`rx.zip(regular_stream, segmentation_stream)` piped through
`ops.starmap(lambda wave, seg: (wave, osp(seg)))`,
`ops.starmap(self.config.embedding)` and
`ops.map(fn.EmbeddingNormalization(norm=1))`, where
`osp = fn.OverlappedSpeechPenalty(gamma=config.gamma, beta=config.beta)`. -/
def OnlineSpeakerDiarization.embeddingStreamOf (d : OnlineSpeakerDiarization)
    (m : FnModel W S E G A An σ) (regular_stream : List W) : List E :=
  let segmentation_stream := regular_stream.map m.segmentation
  let osp := m.osp d.config.gamma d.config.beta
  (((regular_stream.zip segmentation_stream).map (fun p => (p.1, osp p.2))).map
    (fun p => m.embedding p.1 p.2)).map (m.embNorm 1)

/-- `OnlineSpeakerDiarization.from_source`: asserts that the source sample
rate matches the configuration (modelled as `Except.error` for the raised
`AssertionError`), regularizes the stream if needed, branches it into
segmentation and embedding streams, computes `end_time` with
`config.get_end_time`, and hands everything to
`speaker_tracking.from_model_streams`. -/
def OnlineSpeakerDiarization.from_source (d : OnlineSpeakerDiarization)
    (m : FnModel W S E G A An σ) (source : AudioSource W)
    (output_waveform : Bool := true) : Except String (List (An × Option W)) :=
  if source.sample_rate = d.config.sample_rate then
    let regular_stream := d.regularStream m source
    let segmentation_stream := regular_stream.map m.segmentation
    let embedding_stream := d.embeddingStreamOf m regular_stream
    let end_time := d.config.get_end_time source
    let chunk_stream := if output_waveform then some regular_stream else none
    Except.ok (d.speaker_tracking.from_model_streams m source.uri end_time
      segmentation_stream embedding_stream chunk_stream)
  else
    Except.error ("Audio source has sample rate " ++ toString source.sample_rate
      ++ ", expected " ++ toString d.config.sample_rate)

/-- The information `from_file` reads from an audio file through
`src.ChunkLoader`: the file name, `chunk_loader.audio.get_duration(file)`,
and the rearranged chunk array `chunk_loader.get_chunks(file)` as a list of
windows. -/
structure AudioFile (W : Type) where
  name : String
  duration : ℚ
  chunks : List W

/-- The batching loop of `from_file`
(`for i in range(0, num_chunks, batch_size): batch = chunks[i:i_end]`):
splits a list into consecutive batches of `bs` elements (the last batch may
be shorter). -/
def chunkList {α : Type} (bs : ℕ) (l : List α) : List (List α) :=
  if h : bs = 0 ∨ l.isEmpty then []
  else l.take bs :: chunkList bs (l.drop bs)
termination_by l.length
decreasing_by
  rw [List.length_drop]
  push_neg at h
  exact Nat.sub_lt (List.length_pos.mpr (by simpa [List.isEmpty_iff] using h.2))
    (Nat.pos_of_ne_zero h.1)

/-- The `end_time` local of `from_file`:
`chunk_loader.audio.get_duration(file) % self.config.step`. -/
def OnlineSpeakerDiarization.from_file_end_time (d : OnlineSpeakerDiarization)
    (file : AudioFile W) : ℚ :=
  pymod file.duration d.config.step

/-- The `segmentation` array pre-calculated by `from_file`: per batch
`seg = self.config.segmentation(batch)` (the batched adapter call applies the
pure per-window model to each chunk of the batch, per section 6 of the spec),
then `np.vstack`. -/
def OnlineSpeakerDiarization.fileSegmentation (d : OnlineSpeakerDiarization)
    (m : FnModel W S E G A An σ) (file : AudioFile W) (batch_size : ℕ) : List S :=
  ((chunkList batch_size file.chunks).map
    (fun batch => batch.map m.segmentation)).flatten

/-- The `embeddings` array pre-calculated by `from_file`: per batch
`emb_norm(self.config.embedding(batch, osp(seg)))` with
`osp = fn.OverlappedSpeechPenalty(gamma, beta)` and
`emb_norm = fn.EmbeddingNormalization(norm=1)` (batched adapter calls applied
per window, as above), then `torch.vstack`. -/
def OnlineSpeakerDiarization.fileEmbeddings (d : OnlineSpeakerDiarization)
    (m : FnModel W S E G A An σ) (file : AudioFile W) (batch_size : ℕ) : List E :=
  ((chunkList batch_size file.chunks).map (fun batch =>
    let seg := batch.map m.segmentation
    ((batch.zip (seg.map (m.osp d.config.gamma d.config.beta))).map
      (fun p => m.embedding p.1 p.2)).map (m.embNorm 1))).flatten

/-- `OnlineSpeakerDiarization.from_file`: takes `uri` from the file name,
computes `end_time = get_duration(file) % step`, pre-calculates segmentation
and embeddings in batches, optionally streams the raw chunks, and replays
everything through `speaker_tracking.from_model_streams`.  (The wrapping of
the pre-calculated arrays into `SlidingWindowFeature`s carries only window
metadata and is absorbed into the abstract window types.) -/
def OnlineSpeakerDiarization.from_file (d : OnlineSpeakerDiarization)
    (m : FnModel W S E G A An σ) (file : AudioFile W)
    (output_waveform : Bool := false) (batch_size : ℕ := 32) :
    List (An × Option W) :=
  let uri := match String.splitOn file.name (".") with
    | [] => file.name
    | x :: _ => x
  let end_time := d.from_file_end_time file
  let segmentation_stream := d.fileSegmentation m file batch_size
  let embedding_stream := d.fileEmbeddings m file batch_size
  let chunk_stream := if output_waveform then some file.chunks else none
  d.speaker_tracking.from_model_streams m uri (some end_time)
    segmentation_stream embedding_stream chunk_stream

/-! ## Helper lemmas about the stream model -/

/-- Zipping a list with a mapped copy of itself and mapping over the pairs is
a single map. -/
theorem zip_self_map {α β γ : Type} (l : List α) (g : α → β) (h : α × β → γ) :
    (l.zip (l.map g)).map h = l.map (fun x => h (x, g x)) := by
  induction l with
  | nil => rfl
  | cons x xs ih => simp [ih]

/-- Concatenating the batches of `chunkList` recovers the original list. -/
theorem chunkList_flatten {α : Type} (bs : ℕ) (hbs : 0 < bs) (l : List α) :
    (chunkList bs l).flatten = l := by
  rw [chunkList]
  split
  case isTrue h =>
    rcases h with h | h
    · exact absurd h (Nat.pos_iff_ne_zero.mp hbs)
    · simp [List.isEmpty_iff.mp h]
  case isFalse h =>
    have ih := chunkList_flatten bs hbs (l.drop bs)
    simp [ih]
termination_by l.length
decreasing_by
  rename_i h
  rw [List.length_drop]
  push_neg at h
  exact Nat.sub_lt (List.length_pos.mpr (by simpa [List.isEmpty_iff] using h.2))
    (Nat.pos_of_ne_zero h.1)

/-- Mapping a function over every batch of `chunkList` and concatenating is
the same as mapping over the whole list. -/
theorem chunkList_map_flatten {α β : Type} (bs : ℕ) (hbs : 0 < bs) (f : α → β)
    (l : List α) :
    ((chunkList bs l).map (List.map f)).flatten = l.map f := by
  rw [chunkList]
  split
  case isTrue h =>
    rcases h with h | h
    · exact absurd h (Nat.pos_iff_ne_zero.mp hbs)
    · simp [List.isEmpty_iff.mp h]
  case isFalse h =>
    have ih := chunkList_map_flatten bs hbs f (l.drop bs)
    simp only [List.map_cons, List.flatten_cons, ih, List.map_take, List.map_drop,
      List.take_append_drop]
termination_by l.length
decreasing_by
  rename_i h
  rw [List.length_drop]
  push_neg at h
  exact Nat.sub_lt (List.length_pos.mpr (by simpa [List.isEmpty_iff] using h.2))
    (Nat.pos_of_ne_zero h.1)

/-- The second components of a zipped list are a prefix of the second list. -/
theorem zip_map_snd {α β : Type} (l₁ : List α) (l₂ : List β) :
    (l₁.zip l₂).map Prod.snd = l₂.take (l₁.zip l₂).length := by
  induction l₁ generalizing l₂ with
  | nil => simp
  | cons x xs ih =>
    cases l₂ with
    | nil => simp
    | cons y ys => simp [ih]

/-- The first components of a zipped list are a prefix of the first list. -/
theorem zip_map_fst {α β : Type} (l₁ : List α) (l₂ : List β) :
    (l₁.zip l₂).map Prod.fst = l₁.take (l₁.zip l₂).length := by
  induction l₁ generalizing l₂ with
  | nil => simp
  | cons x xs ih =>
    cases l₂ with
    | nil => simp
    | cons y ys => simp [ih]

/-! ## Concrete instances used by witnesses and counterexamples -/

/-- A concrete segmentation-model specification: 5 s windows at 16 kHz. -/
def segModelEx : PipelineModelSpec :=
  { duration := 5, sample_rate := 16000 }

/-- A concrete configuration: `duration = 5`, `step = latency = 0.5`, default
thresholds. -/
def cEx : PipelineConfig :=
  { segModel := segModelEx
    duration := 5
    step := 1/2
    latency := 1/2
    tau_active := 3/5
    rho_update := 3/10
    delta_new := 1
    gamma := 3
    beta := 10
    max_speakers := 20 }

/-- A concrete regular audio source of duration 3.25 s at 16 kHz. -/
def srcEx : AudioSource Unit :=
  { uri := "stream"
    sample_rate := 16000
    duration := some (13/4)
    is_regular := true
    stream := [(), ()] }

/-- A concrete audio file of duration 3.25 s. -/
def fileEx : AudioFile Unit :=
  { name := "audio.wav"
    duration := 13/4
    chunks := [(), ()] }

/-- A concrete diarization pipeline over `cEx`. -/
def dEx : OnlineSpeakerDiarization :=
  { config := cEx }

/-- A concrete source whose sample rate (8 kHz) mismatches `cEx` (16 kHz). -/
def srcBadEx : AudioSource Unit :=
  { uri := "bad"
    sample_rate := 8000
    duration := none
    is_regular := true
    stream := [] }

/-- A concrete irregular audio source. -/
def srcIrrEx : AudioSource Unit :=
  { uri := "irregular"
    sample_rate := 16000
    duration := none
    is_regular := false
    stream := [(), (), ()] }

/-- A concrete instantiation of the external collaborators with trivial
window, segmentation and embedding types. -/
def unitModel : FnModel Unit Unit Unit ℕ ℕ ℕ Unit :=
  { segmentation := fun _ => ()
    embedding := fun _ _ => ()
    osp := fun _ _ s => s
    embNorm := fun _ e => e
    regularize := fun _ _ _ l => l
    clus := fun _ s _ => (s, 0)
    clusInit := ()
    aggregate := fun _ l => l.length
    binarize := fun _ _ a => a
    select := fun _ _ => () }

/-- A clustering callable that behaves like `unitModel.clus` exactly on
clustering modules whose metric is `"cosine"`, and differs elsewhere. -/
def cosOnlyClus : OnlineSpeakerClustering → Unit → Unit × Unit → Unit × ℕ :=
  fun c s _ => (s, if c.metric = "cosine" then 0 else 1)

/-- A concrete tracking stage over `cEx`. -/
def tEx : OnlineSpeakerTracking :=
  { config := cEx }

/-- A concrete stream identifier. -/
def uriEx : String :=
  "stream"

/-! ## Claim theorems -/

/-- Claim C2: for every combination of `step`, `latency` and `duration`,
construction of `PipelineConfig` succeeds if and only if
`step ≤ latency ≤ duration` holds after defaulting; otherwise no
configuration object is produced. -/
theorem pipelineConfig_init_isSome_iff (segModel : PipelineModelSpec)
    (a : PipelineConfigArgs) :
    (PipelineConfig.init segModel a).isSome ↔
      (a.step ≤ a.latency.getD a.step ∧
        a.latency.getD a.step ≤ a.duration.getD segModel.duration) := by
  unfold PipelineConfig.init
  dsimp only
  split <;> simp_all

/-- Witness for C2: with step 1/2 and defaulted latency and duration against
`segModelEx`, construction succeeds. -/
theorem pipelineConfig_init_isSome_iff_witness :
    (PipelineConfig.init segModelEx { step := 1/2 }).isSome :=
  (pipelineConfig_init_isSome_iff segModelEx { step := 1/2 }).mpr
    (by norm_num [segModelEx])

/-- Claim C9: when `PipelineConfig` is constructed without an explicit
latency, the resolved latency equals the step; without an explicit duration,
the resolved duration is the segmentation model's specified duration; and any
successfully constructed configuration satisfies
`step ≤ latency ≤ duration` on the resolved values. -/
theorem pipelineConfig_defaults (segModel : PipelineModelSpec)
    (a : PipelineConfigArgs) (c : PipelineConfig)
    (hc : PipelineConfig.init segModel a = some c) :
    (a.latency = none → c.latency = c.step) ∧
    (a.duration = none → c.duration = segModel.duration) ∧
    (c.step ≤ c.latency ∧ c.latency ≤ c.duration) := by
  unfold PipelineConfig.init at hc
  dsimp only at hc
  split at hc
  case isTrue h =>
    simp only [Option.some.injEq] at hc
    subst hc
    refine ⟨fun hl => ?_, fun hd => ?_, h⟩
    · simp [hl]
    · simp [hd]
  case isFalse h =>
    cases hc

/-- Witness for C9: with `step = 1/2`, `duration` and `latency` left at their
defaults against `segModelEx`, construction succeeds, the latency resolves to
the step, and the duration resolves to the model's 5 s. -/
theorem pipelineConfig_defaults_witness :
    (PipelineConfig.init segModelEx { step := 1/2 } = some cEx) ∧
    cEx.latency = cEx.step ∧ cEx.duration = segModelEx.duration ∧
    (cEx.step ≤ cEx.latency ∧ cEx.latency ≤ cEx.duration) := by
  have hc : PipelineConfig.init segModelEx { step := 1/2 } = some cEx := by
    norm_num [PipelineConfig.init, segModelEx, cEx]
  have h := pipelineConfig_defaults segModelEx { step := 1/2 } cEx hc
  exact ⟨hc, h.1 rfl, h.2.1 rfl, h.2.2⟩

/-- Claim C10: `get_end_time` returns `None` exactly when the source reports
no duration; otherwise it returns `duration - duration % step`, which (for
positive step) is the source duration rounded down to the nearest multiple of
the step: it equals `step * ⌊duration / step⌋`, does not exceed the raw
duration, and dominates every multiple of the step below the duration. -/
theorem get_end_time_spec (c : PipelineConfig) (source : AudioSource W) :
    (c.get_end_time source = none ↔ source.duration = none) ∧
    (∀ d, source.duration = some d →
      c.get_end_time source = some (d - pymod d c.step) ∧
      (0 < c.step →
        d - pymod d c.step = c.step * (⌊d / c.step⌋ : ℚ) ∧
        d - pymod d c.step ≤ d ∧
        ∀ k : ℤ, c.step * (k : ℚ) ≤ d → c.step * (k : ℚ) ≤ d - pymod d c.step)) := by
  constructor
  · unfold PipelineConfig.get_end_time
    cases source.duration <;> simp
  · intro d hd
    have hval : c.get_end_time source = some (d - pymod d c.step) := by
      unfold PipelineConfig.get_end_time
      rw [hd]
    refine ⟨hval, fun hs => ?_⟩
    have heq : d - pymod d c.step = c.step * (⌊d / c.step⌋ : ℚ) := by
      unfold pymod
      ring
    refine ⟨heq, ?_, ?_⟩
    · rw [heq]
      calc c.step * (⌊d / c.step⌋ : ℚ)
          ≤ c.step * (d / c.step) :=
            mul_le_mul_of_nonneg_left (Int.floor_le _) (le_of_lt hs)
        _ = d := by rw [mul_comm, div_mul_cancel₀ d (ne_of_gt hs)]
    · intro k hk
      rw [heq]
      have hk' : (k : ℚ) ≤ d / c.step := by
        rw [le_div_iff₀ hs, mul_comm]
        exact hk
      have : k ≤ ⌊d / c.step⌋ := Int.le_floor.mpr hk'
      exact mul_le_mul_of_nonneg_left (by exact_mod_cast this) (le_of_lt hs)

/-- Witness for C10: at the 3.25 s source with step 0.5, `get_end_time`
returns `3.25 - 3.25 % 0.5 = 3`, which is `0.5 * ⌊3.25 / 0.5⌋` and is at most
the raw duration. -/
theorem get_end_time_spec_witness :
    cEx.get_end_time srcEx = some ((13:ℚ)/4 - pymod (13/4) cEx.step) ∧
    (13:ℚ)/4 - pymod (13/4) cEx.step = cEx.step * (⌊(13:ℚ)/4 / cEx.step⌋ : ℚ) ∧
    (13:ℚ)/4 - pymod (13/4) cEx.step ≤ 13/4 := by
  have h := (get_end_time_spec cEx srcEx).2 (13/4) rfl
  have h' := h.2 (by norm_num [cEx])
  exact ⟨h.1, h'.1, h'.2.1⟩

/-- Claim C1 (divergence witness): with step 0.5 s and a 3.25 s input,
`from_file` computes end time `3.25 % 0.5 = 0.25` while `from_source` passes
`get_end_time = 3.25 - 3.25 % 0.5 = 3`; the two entry points therefore hand
different `stream_end` values to the shared aggregation stage, so their
output sequences are not byte-for-byte equivalent. -/
theorem end_time_divergence :
    dEx.from_file_end_time fileEx = 1/4 ∧
    dEx.config.get_end_time srcEx = some 3 ∧
    some (dEx.from_file_end_time fileEx) ≠ dEx.config.get_end_time srcEx ∧
    (dEx.speaker_tracking.aggregationModule
        (some (dEx.from_file_end_time fileEx))).stream_end ≠
      (dEx.speaker_tracking.aggregationModule
        (dEx.config.get_end_time srcEx)).stream_end := by
  have h1 : dEx.from_file_end_time fileEx = 1/4 := by
    norm_num [OnlineSpeakerDiarization.from_file_end_time, dEx, fileEx, cEx, pymod]
  have h2 : dEx.config.get_end_time srcEx = some 3 := by
    norm_num [PipelineConfig.get_end_time, dEx, srcEx, cEx, pymod]
  refine ⟨h1, h2, ?_, ?_⟩
  · rw [h1, h2]
    norm_num
  · rw [h1, h2]
    simp only [OnlineSpeakerTracking.aggregationModule]
    norm_num

/-- Claim C3: `from_source` succeeds exactly when the source sample rate
matches the configuration's; on a mismatch it fails with an error that does
not depend on any downstream stage (no partial pipeline is constructed). -/
theorem from_source_sample_rate_check (d : OnlineSpeakerDiarization)
    (m : FnModel W S E G A An σ) (source : AudioSource W) (ow : Bool) :
    ((∃ l, d.from_source m source ow = Except.ok l) ↔
      source.sample_rate = d.config.sample_rate) ∧
    (source.sample_rate ≠ d.config.sample_rate →
      ∀ m' : FnModel W S E G A An σ,
        d.from_source m source ow = d.from_source m' source ow ∧
        ∃ e, d.from_source m source ow = Except.error e) := by
  unfold OnlineSpeakerDiarization.from_source
  by_cases h : source.sample_rate = d.config.sample_rate <;> simp [h]

/-- Witness for C3: `dEx.from_source` succeeds on the matching 16 kHz source
and fails on the 8 kHz source. -/
theorem from_source_sample_rate_check_witness :
    (∃ l, dEx.from_source unitModel srcEx true = Except.ok l) ∧
    (∃ e, dEx.from_source unitModel srcBadEx true = Except.error e) := by
  have hr : srcEx.sample_rate = dEx.config.sample_rate := by
    norm_num [srcEx, dEx, cEx, segModelEx, PipelineConfig.sample_rate]
  have hb : srcBadEx.sample_rate ≠ dEx.config.sample_rate := by
    norm_num [srcBadEx, dEx, cEx, segModelEx, PipelineConfig.sample_rate]
  exact ⟨(from_source_sample_rate_check dEx unitModel srcEx true).1.mpr hr,
    ((from_source_sample_rate_check dEx unitModel srcBadEx true).2 hb unitModel).2⟩

/-- Claim C4: the `regular_stream` used by `from_source` is the source stream
itself exactly when the source reports `is_regular`; an irregular source is
piped through `regularize_stream(duration, step, sample_rate)`; and for a
regular source the choice does not depend on the regularization operator at
all (the decision is made once, at setup, from `is_regular` alone). -/
theorem regular_stream_spec (d : OnlineSpeakerDiarization)
    (m : FnModel W S E G A An σ) (source : AudioSource W) :
    (source.is_regular = true → d.regularStream m source = source.stream) ∧
    (source.is_regular = false →
      d.regularStream m source =
        m.regularize d.config.duration d.config.step source.sample_rate
          source.stream) ∧
    (source.is_regular = true →
      ∀ m' : FnModel W S E G A An σ,
        d.regularStream m source = d.regularStream m' source) := by
  unfold OnlineSpeakerDiarization.regularStream
  cases h : source.is_regular <;> simp [h]

/-- Witness for C4: the regular 16 kHz source passes through unmodified; the
irregular source goes through the regularization operator (`unitModel`'s is
the identity, so the stream is returned as given by it). -/
theorem regular_stream_spec_witness :
    dEx.regularStream unitModel srcEx = srcEx.stream ∧
    dEx.regularStream unitModel srcIrrEx =
      unitModel.regularize dEx.config.duration dEx.config.step
        srcIrrEx.sample_rate srcIrrEx.stream := by
  exact ⟨(regular_stream_spec dEx unitModel srcEx).1 rfl,
    (regular_stream_spec dEx unitModel srcIrrEx).2.1 rfl⟩

/-- Claim C5: in live mode and in batch-from-file mode alike, the embedding
stream fed to the tracking stage is, element for element, the window mapped
through the overlapped-speech penalty (at the configured `gamma` and `beta`)
applied to that window's segmentation, then the embedding model, then
`EmbeddingNormalization(norm=1)`. -/
theorem embedding_pipeline_composition (d : OnlineSpeakerDiarization)
    (m : FnModel W S E G A An σ) (regular_stream : List W)
    (file : AudioFile W) (batch_size : ℕ) (hbs : 0 < batch_size) :
    d.embeddingStreamOf m regular_stream =
      regular_stream.map (fun w =>
        m.embNorm 1 (m.embedding w
          (m.osp d.config.gamma d.config.beta (m.segmentation w)))) ∧
    d.fileEmbeddings m file batch_size =
      file.chunks.map (fun w =>
        m.embNorm 1 (m.embedding w
          (m.osp d.config.gamma d.config.beta (m.segmentation w)))) := by
  constructor
  · unfold OnlineSpeakerDiarization.embeddingStreamOf
    dsimp only
    rw [List.map_map, List.map_map, zip_self_map]
    rfl
  · unfold OnlineSpeakerDiarization.fileEmbeddings
    dsimp only
    have hbatch : (fun batch : List W =>
        ((batch.zip ((batch.map m.segmentation).map
            (m.osp d.config.gamma d.config.beta))).map
          (fun p => m.embedding p.1 p.2)).map (m.embNorm 1)) =
        List.map (fun w =>
          m.embNorm 1 (m.embedding w
            (m.osp d.config.gamma d.config.beta (m.segmentation w)))) := by
      funext batch
      rw [List.map_map, List.map_map, zip_self_map]
      rfl
    rw [hbatch, chunkList_map_flatten batch_size hbs]

/-- Witness for C5: the composed form evaluated over `unitModel` on a
one-window live stream and on the two-chunk file with batch size 32. -/
theorem embedding_pipeline_composition_witness :
    dEx.embeddingStreamOf unitModel [()] =
      [()].map (fun w =>
        unitModel.embNorm 1 (unitModel.embedding w
          (unitModel.osp dEx.config.gamma dEx.config.beta
            (unitModel.segmentation w)))) ∧
    dEx.fileEmbeddings unitModel fileEx 32 =
      fileEx.chunks.map (fun w =>
        unitModel.embNorm 1 (unitModel.embedding w
          (unitModel.osp dEx.config.gamma dEx.config.beta
            (unitModel.segmentation w)))) :=
  embedding_pipeline_composition dEx unitModel [()] fileEx 32 (by norm_num)

/-- Claim C6: the clustering stage instantiated by `from_model_streams` is
parameterized by the configured `tau_active`, `rho_update`, `delta_new` and
`max_speakers` with the `"cosine"` metric, and the pipeline invokes the
clustering callable only at that instantiation: replacing the callable by any
other one that agrees at the cosine-metric module leaves every output
unchanged. -/
theorem clustering_uses_cosine_and_config (t : OnlineSpeakerTracking)
    (m : FnModel W S E G A An σ) (uri : String) (end_time : Option ℚ)
    (ss : List S) (es : List E) (acs : Option (List W))
    (clus' : OnlineSpeakerClustering → σ → S × E → σ × G)
    (h : clus' t.clusteringModule = m.clus t.clusteringModule) :
    t.clusteringModule =
      { tau_active := t.config.tau_active
        rho_update := t.config.rho_update
        delta_new := t.config.delta_new
        metric := "cosine"
        max_speakers := t.config.max_speakers } ∧
    t.from_model_streams { m with clus := clus' } uri end_time ss es acs =
      t.from_model_streams m uri end_time ss es acs := by
  refine ⟨rfl, ?_⟩
  unfold OnlineSpeakerTracking.from_model_streams OnlineSpeakerTracking.mainPipeline
    OnlineSpeakerTracking.waveformStream
  dsimp only
  rw [h]

/-- Witness for C6: over `cEx`, replacing `unitModel.clus` by `cosOnlyClus`
(which coincides with it only on cosine-metric modules) leaves the output of
`from_model_streams` unchanged. -/
theorem clustering_uses_cosine_and_config_witness :
    tEx.clusteringModule =
      { tau_active := tEx.config.tau_active
        rho_update := tEx.config.rho_update
        delta_new := tEx.config.delta_new
        metric := "cosine"
        max_speakers := tEx.config.max_speakers } ∧
    tEx.from_model_streams { unitModel with clus := cosOnlyClus } uriEx none
        [()] [()] (some [()]) =
      tEx.from_model_streams unitModel uriEx none [()] [()] (some [()]) :=
  clustering_uses_cosine_and_config tEx unitModel uriEx none [()] [()]
    (some [()]) cosOnlyClus
    (by
      funext s p
      simp [cosOnlyClus, unitModel, OnlineSpeakerTracking.clusteringModule])

/-- Claim C7: every element emitted by `from_model_streams` is a pair whose
first component is the annotation produced by the main pipeline; without an
audio chunk stream every second component is `None`, and with one the second
components are exactly the corresponding selected waveform windows, in index
order. -/
theorem output_pair_shape (t : OnlineSpeakerTracking)
    (m : FnModel W S E G A An σ) (uri : String) (end_time : Option ℚ)
    (ss : List S) (es : List E) :
    ((t.from_model_streams m uri end_time ss es none).map Prod.snd =
      List.replicate (t.from_model_streams m uri end_time ss es none).length
        (none : Option W)) ∧
    ((t.from_model_streams m uri end_time ss es none).map Prod.fst =
      t.mainPipeline m uri end_time ss es) ∧
    (∀ ws : List W,
      (t.from_model_streams m uri end_time ss es (some ws)).map Prod.snd =
        ((t.waveformStream m end_time ws).take
          (t.from_model_streams m uri end_time ss es (some ws)).length).map
            some ∧
      (t.from_model_streams m uri end_time ss es (some ws)).map Prod.fst =
        (t.mainPipeline m uri end_time ss es).take
          (t.from_model_streams m uri end_time ss es (some ws)).length) := by
  refine ⟨?_, ?_, fun ws => ⟨?_, ?_⟩⟩
  · unfold OnlineSpeakerTracking.from_model_streams
    dsimp only
    simp [List.map_map, Function.comp_def, List.map_const']
  · unfold OnlineSpeakerTracking.from_model_streams
    dsimp only
    simp [List.map_map, Function.comp_def]
  · unfold OnlineSpeakerTracking.from_model_streams
    dsimp only
    rw [zip_map_snd, List.map_take]
  · unfold OnlineSpeakerTracking.from_model_streams
    dsimp only
    rw [zip_map_fst]

/-- Witness for C7: concrete evaluation of the `None` branch over `cEx`. -/
theorem output_pair_shape_witness :
    (tEx.from_model_streams unitModel uriEx none [()] [()] none).map Prod.snd =
      List.replicate
        (tEx.from_model_streams unitModel uriEx none [()] [()] none).length
        (none : Option Unit) :=
  (output_pair_shape tEx unitModel uriEx none [()] [()]).1

/-- Claim C8: the waveform branch is reduced by a `DelayedAggregation` with
strategy `"first"` sharing the annotation branch's `step`, `latency` and
`stream_end` (hence the same number of overlapping buffered windows, one
buffer per arriving window), and is zipped index-wise with the annotation
pipeline, whose `i`-th output aggregates the `i`-th sliding buffer of the
clustered stream just as the `i`-th waveform window selects from the `i`-th
sliding buffer of the audio stream. -/
theorem waveform_branch_spec (t : OnlineSpeakerTracking)
    (m : FnModel W S E G A An σ) (uri : String) (end_time : Option ℚ)
    (ss : List S) (es : List E) (ws : List W) :
    (t.windowSelectorModule end_time).strategy = "first" ∧
    (t.windowSelectorModule end_time).step =
      (t.aggregationModule end_time).step ∧
    (t.windowSelectorModule end_time).latency =
      (t.aggregationModule end_time).latency ∧
    (t.windowSelectorModule end_time).stream_end =
      (t.aggregationModule end_time).stream_end ∧
    (t.windowSelectorModule end_time).num_overlapping_windows =
      (t.aggregationModule end_time).num_overlapping_windows ∧
    t.waveformStream m end_time ws =
      (buffer_slide (t.aggregationModule end_time).num_overlapping_windows
        ws).map (m.select (t.windowSelectorModule end_time)) ∧
    (buffer_slide (t.aggregationModule end_time).num_overlapping_windows
      ws).length = ws.length ∧
    t.mainPipeline m uri end_time ss es =
      ((buffer_slide (t.aggregationModule end_time).num_overlapping_windows
          (statefulMap (m.clus t.clusteringModule) m.clusInit
            (ss.zip es))).map
        (m.aggregate (t.aggregationModule end_time))).map
        (m.binarize uri t.config.tau_active) ∧
    t.from_model_streams m uri end_time ss es (some ws) =
      (t.mainPipeline m uri end_time ss es).zip
        ((t.waveformStream m end_time ws).map some) := by
  refine ⟨rfl, rfl, rfl, rfl, rfl, rfl, ?_, rfl, rfl⟩
  simp [buffer_slide]

/-- Witness for C8: the `"first"` strategy of the concrete window selector
over `cEx`. -/
theorem waveform_branch_spec_witness :
    (tEx.windowSelectorModule none).strategy = "first" :=
  (waveform_branch_spec tEx unitModel uriEx none [()] [()] [()]).1

end Diart
